import Mathlib

/-!
Verification of the lab-marker extraction and health-scoring engine of the
`health-insights-ai-app` repository.

The health scorer is embedded from `frontend/components/HealthSummary.tsx`
(`getHealthScore` and the rating ternary in the render).  The marker
extractor lives in the backend, which is not part of the frontend sources;
it is modelled from the specification where needed, with each such
definition marked in its doc comment.

JavaScript numbers are modelled as rationals (`ℚ`): the engine only
compares and copies them, it performs no float arithmetic on them.
A wearable metric group is `Option (Option ℚ)`: `none` is a missing
metric object, `some none` is an object whose `latest` field is missing
or null, and `some (some v)` is an object with `latest = v`.
-/

set_option autoImplicit false

namespace HealthInsights

/-- Wearable summary as consumed by `getHealthScore`: the `steps`,
`heart_rate` and `sleep` groups, each carrying an optional `latest`
reading (only `latest` is read by the scorer). -/
structure WearableSummary where
  steps : Option (Option ℚ)
  heart_rate : Option (Option ℚ)
  sleep : Option (Option ℚ)

/-- The JavaScript guard `summary.m && summary.m.latest && summary.m.latest > 0`:
the metric contributes a value exactly when the group object exists, the
`latest` field is a truthy number, and it is positive.  Zero is falsy, so a
zero reading is absent, exactly as a missing or null one. -/
def latestValue (m : Option (Option ℚ)) : Option ℚ :=
  match m with
  | some (some v) => if 0 < v then some v else none
  | _ => none

/-- Steps check of `getHealthScore` (HealthSummary.tsx lines 61-66):
deduction and factor contributed by the steps metric. -/
def stepsFactor (m : Option (Option ℚ)) : Int × List String :=
  match latestValue m with
  | some v => if v < 8000 then (10, ["Low step count"]) else (0, [])
  | none => (0, [])

/-- Heart-rate check of `getHealthScore` (lines 67-72). -/
def heartRateFactor (m : Option (Option ℚ)) : Int × List String :=
  match latestValue m with
  | some v =>
      if v < 60 ∨ 100 < v then (15, ["Heart rate outside normal range"]) else (0, [])
  | none => (0, [])

/-- Sleep check of `getHealthScore` (lines 73-78). -/
def sleepFactor (m : Option (Option ℚ)) : Int × List String :=
  match latestValue m with
  | some v => if v < 7 then (15, ["Insufficient sleep"]) else (0, [])
  | none => (0, [])

/-- A report as read by the scorer: its `flagged_markers` object, reduced to
the list of its keys (`none` when the field is null or missing). -/
structure Report where
  flagged_markers : Option (List String)

/-- `Object.keys(report.flagged_markers).length`, with a null or missing
`flagged_markers` counting as zero keys. -/
def flaggedCount (r : Report) : Nat :=
  match r.flagged_markers with
  | some ks => ks.length
  | none => 0

/-- One iteration of the `recentReports.forEach` loop of `getHealthScore`
(lines 81-86): a report with a non-empty `flagged_markers` object costs 20
points and pushes one factor naming the number of flagged markers. -/
def reportStep (acc : Int × List String) (r : Report) : Int × List String :=
  if 0 < flaggedCount r then
    (acc.1 - 20, acc.2 ++ [toString (flaggedCount r) ++ " abnormal lab markers"])
  else acc

/-- Result record of `getHealthScore`: `{score, factors}`. -/
structure HealthAssessment where
  score : Int
  factors : List String
deriving DecidableEq, Repr

/-- `getHealthScore` from HealthSummary.tsx lines 56-89: start at 100,
apply the three wearable checks in order, then the report loop, and floor
the score at 0 (`Math.max(0, score)`). -/
def getHealthScore (summary : WearableSummary) (recentReports : List Report) :
    HealthAssessment :=
  let s := stepsFactor summary.steps
  let h := heartRateFactor summary.heart_rate
  let sl := sleepFactor summary.sleep
  let start : Int × List String := (100 - s.1 - h.1 - sl.1, s.2 ++ h.2 ++ sl.2)
  let final := recentReports.foldl reportStep start
  ⟨max 0 final.1, final.2⟩

/-- The rating ternary of the HealthSummary render (lines 123-125). -/
def rating (score : Int) : String :=
  if 80 ≤ score then "Excellent"
  else if 60 ≤ score then "Good"
  else if 40 ≤ score then "Fair"
  else "Needs Attention"

/-- The factor string contributed by one report, if any: the body of the
`recentReports.forEach` loop as a per-report function. -/
def reportFactor (r : Report) : Option String :=
  if 0 < flaggedCount r then
    some (toString (flaggedCount r) ++ " abnormal lab markers")
  else none

/-- Status of an extracted marker: `low`, `normal` or `high`. -/
inductive MarkerStatus
  | low
  | normal
  | high
deriving DecidableEq, Repr

/-- `ExtractedMarker` record (spec §3, serialized shape in
ManualEntry.tsx lines 5-12). -/
structure ExtractedMarker where
  name : String
  value : ℚ
  unit : String
  normalRange : String
  status : MarkerStatus
  recommendation : String
deriving DecidableEq, Repr

/-- `ExtractionResult` record (spec §3, serialized shape in
ManualEntry.tsx lines 17-22). -/
structure ExtractionResult where
  source_text : String
  text_length : Nat
  markers : List ExtractedMarker
  markers_found : Nat
deriving DecidableEq, Repr

/-- Number of markers of an `ExtractionResult` whose status is not `normal`. -/
def countAbnormal (r : ExtractionResult) : Nat :=
  (r.markers.filter fun m => decide (m.status ≠ MarkerStatus.normal)).length

/-- Modelled from the spec: the backend report pipeline (absent from the
frontend sources) persists, for each `ExtractionResult`, its markers with
`status != normal` as the report's `flagged_markers`, keyed by marker name,
which is what `getHealthScore` later reads back. -/
def reportOfResult (r : ExtractionResult) : Report :=
  ⟨some ((r.markers.filter fun m => decide (m.status ≠ MarkerStatus.normal)).map
      ExtractedMarker.name)⟩

/-- `MarkerDefinition` record (spec §3): static configuration of a known
marker, with its alias sets, reference range and recommendations. -/
structure MarkerDefinition where
  canonical_name : String
  aliases : List String
  unit : String
  unit_aliases : List String
  low : ℚ
  high : ℚ
  recommendation_low : String
  recommendation_high : String

/-- Modelled from the spec: normalisation collapses internal whitespace runs
into a single space (spec §4.1 step 1). -/
def squeeze : List Char → List Char
  | [] => []
  | [c] => [if c.isWhitespace then ' ' else c]
  | c1 :: c2 :: rest =>
    if c1.isWhitespace && c2.isWhitespace then squeeze (c2 :: rest)
    else (if c1.isWhitespace then ' ' else c1) :: squeeze (c2 :: rest)

/-- Uppercased character list of a string, for case-insensitive matching. -/
def upper (s : String) : List Char :=
  s.data.map Char.toUpper

/-- Value of a digit run, most significant digit first. -/
def digitsToNat (ds : List Char) : Nat :=
  ds.foldl (fun a c => a * 10 + (c.toNat - 48)) 0

/-- Modelled from the spec: parse an unsigned numeric literal (integer or
decimal) at the head of the character list, returning its value and its
length in characters; `none` when the head is not a digit (spec §4.1
step 2, edge cases in §4.1). -/
def parseNumberAt (s : List Char) : Option (ℚ × Nat) :=
  let ds := s.takeWhile Char.isDigit
  if ds.isEmpty then none
  else
    match s.drop ds.length with
    | '.' :: r2 =>
      let fs := r2.takeWhile Char.isDigit
      if fs.isEmpty then some ((digitsToNat ds : ℚ), ds.length)
      else
        some ((digitsToNat ds : ℚ) + (digitsToNat fs : ℚ) / (10 : ℚ) ^ fs.length,
          ds.length + 1 + fs.length)
    | _ => some ((digitsToNat ds : ℚ), ds.length)

/-- Length in characters of the numeric literal at the head, 0 if none. -/
def numberLengthAt (s : List Char) : Nat :=
  match parseNumberAt s with
  | some (_, n) => n
  | none => 0

/-- Modelled from the spec: search a bounded lookahead window for the first
numeric literal; a leading `<` or `>` is stripped and ignored, a negative
number is skipped as a non-match (spec §4.1 steps 2 and edge cases).
Returns the value and the offset one past the end of the literal. -/
def findNumber : Nat → List Char → Option (ℚ × Nat)
  | 0, _ => none
  | _, [] => none
  | window + 1, c :: rest =>
    if c.isDigit then
      parseNumberAt (c :: rest)
    else if (c = '<' || c = '>') && (rest.headD ' ').isDigit then
      (parseNumberAt rest).map fun p => (p.1, p.2 + 1)
    else if c = '-' && (rest.headD ' ').isDigit then
      let n := numberLengthAt rest
      (findNumber window (rest.drop n)).map fun p => (p.1, p.2 + 1 + n)
    else
      (findNumber window rest).map fun p => (p.1, p.2 + 1)

/-- Modelled from the spec: after the numeric literal, skip spaces and match
one of the definition's unit aliases against the text; if none matches, fall
back to the canonical unit (spec §4.1 step 2). -/
def matchUnit (d : MarkerDefinition) (s : List Char) : String :=
  let t := s.dropWhile (· = ' ')
  match (d.unit :: d.unit_aliases).find? (fun u => (upper u).isPrefixOf t) with
  | some u => u
  | none => d.unit

/-- Decimal rendering of a rational bound. -/
def ratStr (q : ℚ) : String :=
  if q.den = 1 then toString q.num
  else toString q.num ++ "/" ++ toString q.den

/-- String render of the definition's `[low, high]` reference range. -/
def rangeString (d : MarkerDefinition) : String :=
  ratStr d.low ++ "-" ++ ratStr d.high

/-- Modelled from the spec: classification of a matched value against the
definition's bounds (spec §4.1 step 4): `low` below `low`, `high` above
`high`, otherwise `normal` with an empty recommendation. -/
def mkExtractedMarker (d : MarkerDefinition) (v : ℚ) (u : String) : ExtractedMarker :=
  if v < d.low then
    ⟨d.canonical_name, v, u, rangeString d, MarkerStatus.low, d.recommendation_low⟩
  else if d.high < v then
    ⟨d.canonical_name, v, u, rangeString d, MarkerStatus.high, d.recommendation_high⟩
  else
    ⟨d.canonical_name, v, u, rangeString d, MarkerStatus.normal, ""⟩

/-- Modelled from the spec: try one alias at the head of the text; the alias
must be a non-empty prefix, and a numeric literal must occur in the
80-character lookahead window after it.  Returns the marker and the number of
characters consumed (alias plus lookahead through the literal). -/
def tryAlias (d : MarkerDefinition) (al : List Char) (s : List Char) :
    Option (ExtractedMarker × Nat) :=
  if al.isEmpty || !(al.isPrefixOf s) then none
  else
    let after := s.drop al.length
    match findNumber 80 after with
    | some (v, n) =>
      some (mkExtractedMarker d v (matchUnit d (after.drop n)), al.length + n)
    | none => none

/-- Try each entry of the alias table in order at the head of the text. -/
def tryDefs : List (List Char × MarkerDefinition) → List Char →
    Option (ExtractedMarker × Nat)
  | [], _ => none
  | (al, d) :: ps, s =>
    match tryAlias d al s with
    | some r => some r
    | none => tryDefs ps s

/-- Modelled from the spec: left-to-right scan (spec §4.1 steps 3 and 6); at
each position the alias table is tried longest-alias-first, a successful
match consumes its span and is not revisited, an unsuccessful position is
skipped.  The fuel argument bounds the recursion by the text length; each
step consumes at least one character. -/
def scanText (pairs : List (List Char × MarkerDefinition)) :
    Nat → List Char → List ExtractedMarker
  | 0, _ => []
  | _, [] => []
  | fuel + 1, c :: rest =>
    match tryDefs pairs (c :: rest) with
    | some (m, k) => m :: scanText pairs fuel (List.drop (k - 1) rest)
    | none => scanText pairs fuel rest

/-- Insert an alias pair into a list sorted by decreasing alias length. -/
def insertByLen (p : List Char × MarkerDefinition) :
    List (List Char × MarkerDefinition) → List (List Char × MarkerDefinition)
  | [] => [p]
  | q :: qs =>
    if p.1.length ≤ q.1.length then q :: insertByLen p qs
    else p :: q :: qs

/-- Sort the alias table by decreasing alias length (longest first). -/
def sortByLen : List (List Char × MarkerDefinition) →
    List (List Char × MarkerDefinition)
  | [] => []
  | p :: ps => insertByLen p (sortByLen ps)

/-- Modelled from the spec: the alias table as a list of
`(uppercased alias, definition)` pairs, processed longest alias first
(spec §4.1 step 3, §9). -/
def aliasTable (defs : List MarkerDefinition) : List (List Char × MarkerDefinition) :=
  sortByLen (defs.foldr (fun d acc => (d.aliases.map fun a => (upper a, d)) ++ acc) [])

/-- Modelled from the spec: `extract(raw_text)` — the backend marker
extractor (absent from the frontend sources): normalise the input, scan it
with the alias table, and assemble the `ExtractionResult`; total, an input
without matches yields an empty marker list (spec §4.1, §7). -/
def extract (defs : List MarkerDefinition) (raw : String) : ExtractionResult :=
  let norm := squeeze (raw.data.map Char.toUpper)
  let ms := scanText (aliasTable defs) norm.length norm
  ⟨raw, raw.length, ms, ms.length⟩

/-- Modelled from the spec: the static marker-definition table shipped with
the backend (absent from the frontend sources); the FERRITIN and GLUCOSE
entries carry the reference ranges quoted in the spec scenarios and in the
ManualEntry usage example. -/
def markerTable : List MarkerDefinition :=
  [⟨"FERRITIN", ["FERRITIN", "SERUM FERRITIN"], "ng/mL", ["ng/ml", "NG/ML"], 38, 380,
     "Consider iron-rich foods and discuss supplementation with your doctor.",
     "Discuss elevated ferritin levels with your doctor."⟩,
   ⟨"GLUCOSE", ["GLUCOSE", "FASTING GLUCOSE"], "mg/dL", ["mg/dl", "MG/DL"], 70, 100,
     "Low blood sugar reading; consider discussing with your doctor.",
     "Elevated blood sugar reading; consider discussing with your doctor."⟩]

/-! ### Helper lemmas about the scorer -/

theorem foldl_reportStep_score (rs : List Report) (s : Int) (fs : List String) :
    (rs.foldl reportStep (s, fs)).1
      = s - 20 * ((rs.countP fun r => decide (0 < flaggedCount r)) : Int) := by
  induction rs generalizing s fs with
  | nil => simp
  | cons r rs ih =>
    by_cases h : 0 < flaggedCount r
    · have hd : decide (0 < flaggedCount r) = true := by simpa using h
      simp only [List.foldl_cons, List.countP_cons, reportStep, if_pos h, hd,
        if_true, ih]
      push_cast
      ring
    · have hd : decide (0 < flaggedCount r) = false := by simpa using h
      simp only [List.foldl_cons, List.countP_cons, reportStep, if_neg h, hd,
        Bool.false_eq_true, if_false, ih]
      push_cast
      ring

theorem foldl_reportStep_factors (rs : List Report) (s : Int) (fs : List String) :
    (rs.foldl reportStep (s, fs)).2 = fs ++ rs.filterMap reportFactor := by
  induction rs generalizing s fs with
  | nil => simp
  | cons r rs ih =>
    by_cases h : 0 < flaggedCount r
    · simp only [List.foldl_cons, List.filterMap_cons, reportStep, reportFactor,
        if_pos h]
      rw [ih, List.append_assoc]
      rfl
    · simp only [List.foldl_cons, List.filterMap_cons, reportStep, reportFactor,
        if_neg h]
      rw [ih]

theorem getHealthScore_score (w : WearableSummary) (rs : List Report) :
    (getHealthScore w rs).score
      = max 0 (100 - (stepsFactor w.steps).1 - (heartRateFactor w.heart_rate).1
          - (sleepFactor w.sleep).1
          - 20 * ((rs.countP fun r => decide (0 < flaggedCount r)) : Int)) := by
  simp only [getHealthScore, foldl_reportStep_score]

theorem getHealthScore_factors (w : WearableSummary) (rs : List Report) :
    (getHealthScore w rs).factors
      = (stepsFactor w.steps).2 ++ (heartRateFactor w.heart_rate).2
        ++ (sleepFactor w.sleep).2 ++ rs.filterMap reportFactor := by
  simp only [getHealthScore, foldl_reportStep_factors, List.append_assoc]

theorem stepsFactor_fst (m : Option (Option ℚ)) :
    (stepsFactor m).1 = 0 ∨ (stepsFactor m).1 = 10 := by
  unfold stepsFactor
  rcases latestValue m with _ | v
  · exact Or.inl rfl
  · by_cases h : v < 8000
    · exact Or.inr (by simp [h])
    · exact Or.inl (by simp [h])

theorem heartRateFactor_fst (m : Option (Option ℚ)) :
    (heartRateFactor m).1 = 0 ∨ (heartRateFactor m).1 = 15 := by
  unfold heartRateFactor
  rcases latestValue m with _ | v
  · exact Or.inl rfl
  · by_cases h : v < 60 ∨ 100 < v
    · exact Or.inr (by simp [h])
    · exact Or.inl (by simp [h])

theorem sleepFactor_fst (m : Option (Option ℚ)) :
    (sleepFactor m).1 = 0 ∨ (sleepFactor m).1 = 15 := by
  unfold sleepFactor
  rcases latestValue m with _ | v
  · exact Or.inl rfl
  · by_cases h : v < 7
    · exact Or.inr (by simp [h])
    · exact Or.inl (by simp [h])

theorem stepsFactor_snd (m : Option (Option ℚ)) :
    (stepsFactor m).2 = [] ∨ (stepsFactor m).2 = ["Low step count"] := by
  unfold stepsFactor
  rcases latestValue m with _ | v
  · exact Or.inl rfl
  · by_cases h : v < 8000
    · exact Or.inr (by simp [h])
    · exact Or.inl (by simp [h])

theorem heartRateFactor_snd (m : Option (Option ℚ)) :
    (heartRateFactor m).2 = []
      ∨ (heartRateFactor m).2 = ["Heart rate outside normal range"] := by
  unfold heartRateFactor
  rcases latestValue m with _ | v
  · exact Or.inl rfl
  · by_cases h : v < 60 ∨ 100 < v
    · exact Or.inr (by simp [h])
    · exact Or.inl (by simp [h])

theorem sleepFactor_snd (m : Option (Option ℚ)) :
    (sleepFactor m).2 = [] ∨ (sleepFactor m).2 = ["Insufficient sleep"] := by
  unfold sleepFactor
  rcases latestValue m with _ | v
  · exact Or.inl rfl
  · by_cases h : v < 7
    · exact Or.inr (by simp [h])
    · exact Or.inl (by simp [h])

theorem getHealthScore_congr (w w' : WearableSummary) (rs : List Report)
    (h1 : stepsFactor w.steps = stepsFactor w'.steps)
    (h2 : heartRateFactor w.heart_rate = heartRateFactor w'.heart_rate)
    (h3 : sleepFactor w.sleep = sleepFactor w'.sleep) :
    getHealthScore w rs = getHealthScore w' rs := by
  unfold getHealthScore
  rw [h1, h2, h3]

theorem append_markers_ne (p t : String)
    (ht : ¬ (" abnormal lab markers").data <:+ t.data) :
    p ++ " abnormal lab markers" ≠ t := by
  intro h
  apply ht
  refine ⟨p.data, ?_⟩
  have h2 := congrArg String.data h
  rwa [String.data_append] at h2

theorem mem_reportFactors_ne (rs : List Report) (s t : String)
    (hs : s ∈ rs.filterMap reportFactor)
    (ht : ¬ (" abnormal lab markers").data <:+ t.data) : s ≠ t := by
  rw [List.mem_filterMap] at hs
  obtain ⟨r, -, hr⟩ := hs
  unfold reportFactor at hr
  split_ifs at hr with h
  rw [Option.some.injEq] at hr
  rw [← hr]
  exact append_markers_ne _ t ht

theorem flaggedCount_reportOfResult (r : ExtractionResult) :
    flaggedCount (reportOfResult r) = countAbnormal r := by
  simp [flaggedCount, reportOfResult, countAbnormal]

/-! ### The claims -/

/-- C2: the rating is derived from the score by closed, non-overlapping
thresholds: `score >= 80` yields `Excellent`, `60 <= score < 80` yields
`Good`, `40 <= score < 60` yields `Fair`, `score < 40` yields
`Needs Attention`. -/
theorem C2_rating_thresholds (s : Int) :
    (80 ≤ s → rating s = "Excellent")
    ∧ (60 ≤ s ∧ s < 80 → rating s = "Good")
    ∧ (40 ≤ s ∧ s < 60 → rating s = "Fair")
    ∧ (s < 40 → rating s = "Needs Attention") := by
  unfold rating
  refine ⟨fun h => ?_, fun h => ?_, fun h => ?_, fun h => ?_⟩ <;>
    split_ifs <;> first | rfl | omega

/-- Witness for C2 at score 85. -/
theorem C2_rating_thresholds_witness : rating 85 = "Excellent" :=
  (C2_rating_thresholds 85).1 (by norm_num)

/-- C6: with all wearable metrics absent and no reports, the scorer returns
score 100 with an empty factor list, and the derived rating is
`Excellent`. -/
theorem C6_empty_inputs :
    getHealthScore ⟨none, none, none⟩ [] = ⟨100, []⟩
    ∧ rating (getHealthScore ⟨none, none, none⟩ []).score = "Excellent" := by
  decide

/-- C10: with an empty report list the score is at least 60 — the wearable
deductions total at most `10 + 15 + 15 = 40` — so the rating from wearable
data alone is always `Excellent` or `Good`. -/
theorem C10_wearable_only_rating (w : WearableSummary) :
    60 ≤ (getHealthScore w []).score
    ∧ (rating (getHealthScore w []).score = "Excellent"
       ∨ rating (getHealthScore w []).score = "Good") := by
  have hsc := getHealthScore_score w []
  simp only [List.countP_nil] at hsc
  have h1 := stepsFactor_fst w.steps
  have h2 := heartRateFactor_fst w.heart_rate
  have h3 := sleepFactor_fst w.sleep
  have hge : 60 ≤ (getHealthScore w []).score := by
    rw [hsc]; rcases h1 with h1 | h1 <;> rcases h2 with h2 | h2 <;>
      rcases h3 with h3 | h3 <;> rw [h1, h2, h3] <;> norm_num
  refine ⟨hge, ?_⟩
  by_cases g1 : 80 ≤ (getHealthScore w []).score
  · left
    unfold rating
    rw [if_pos g1]
  · right
    unfold rating
    rw [if_neg g1, if_pos (by omega : 60 ≤ (getHealthScore w []).score)]

/-- C3: the score is always in `[0, 100]`, appending an abnormal report
never increases it, and turning an absent wearable metric into one that
triggers a deduction never increases it. -/
theorem C3_score_range_monotone (w : WearableSummary) (rs : List Report) :
    (0 ≤ (getHealthScore w rs).score ∧ (getHealthScore w rs).score ≤ 100)
    ∧ (∀ r : Report, 0 < flaggedCount r →
        (getHealthScore w (rs ++ [r])).score ≤ (getHealthScore w rs).score)
    ∧ (∀ v : ℚ, latestValue w.steps = none → 0 < v → v < 8000 →
        (getHealthScore ⟨some (some v), w.heart_rate, w.sleep⟩ rs).score
          ≤ (getHealthScore w rs).score)
    ∧ (∀ v : ℚ, latestValue w.heart_rate = none → 0 < v → (v < 60 ∨ 100 < v) →
        (getHealthScore ⟨w.steps, some (some v), w.sleep⟩ rs).score
          ≤ (getHealthScore w rs).score)
    ∧ (∀ v : ℚ, latestValue w.sleep = none → 0 < v → v < 7 →
        (getHealthScore ⟨w.steps, w.heart_rate, some (some v)⟩ rs).score
          ≤ (getHealthScore w rs).score) := by
  have h1 := stepsFactor_fst w.steps
  have h2 := heartRateFactor_fst w.heart_rate
  have h3 := sleepFactor_fst w.sleep
  have hk : (0:Int) ≤ ((rs.countP fun r => decide (0 < flaggedCount r)) : Int) :=
    Int.ofNat_nonneg _
  refine ⟨?_, ?_, ?_, ?_, ?_⟩
  · rw [getHealthScore_score]
    refine ⟨le_max_left 0 _, max_le (by norm_num) ?_⟩
    rcases h1 with h1 | h1 <;> rcases h2 with h2 | h2 <;> rcases h3 with h3 | h3 <;>
      rw [h1, h2, h3] <;> omega
  · intro r hr
    rw [getHealthScore_score, getHealthScore_score]
    apply max_le_max (le_refl 0)
    rw [List.countP_append]
    have : (List.countP (fun r => decide (0 < flaggedCount r)) [r]) = 1 := by
      simp [hr]
    omega
  · intro v hnone h0 h8
    rw [getHealthScore_score, getHealthScore_score]
    have hl : stepsFactor (some (some v)) = (10, ["Low step count"]) := by
      simp [stepsFactor, latestValue, h0, h8]
    have hn : stepsFactor w.steps = (0, []) := by
      simp [stepsFactor, hnone]
    apply max_le_max (le_refl 0)
    simp only [hl, hn]
    omega
  · intro v hnone h0 hout
    rw [getHealthScore_score, getHealthScore_score]
    have hl : heartRateFactor (some (some v)) = (15, ["Heart rate outside normal range"]) := by
      simp [heartRateFactor, latestValue, h0, hout]
    have hn : heartRateFactor w.heart_rate = (0, []) := by
      simp [heartRateFactor, hnone]
    apply max_le_max (le_refl 0)
    simp only [hl, hn]
    omega
  · intro v hnone h0 h7
    rw [getHealthScore_score, getHealthScore_score]
    have hl : sleepFactor (some (some v)) = (15, ["Insufficient sleep"]) := by
      simp [sleepFactor, latestValue, h0, h7]
    have hn : sleepFactor w.sleep = (0, []) := by
      simp [sleepFactor, hnone]
    apply max_le_max (le_refl 0)
    simp only [hl, hn]
    omega

/-- Witness for C3 at the empty wearable summary and empty report list. -/
theorem C3_score_range_monotone_witness :
    (0 ≤ (getHealthScore ⟨none, none, none⟩ []).score
      ∧ (getHealthScore ⟨none, none, none⟩ []).score ≤ 100)
    ∧ (getHealthScore ⟨none, none, none⟩ ([] ++ [⟨some ["FERRITIN"]⟩])).score
        ≤ (getHealthScore ⟨none, none, none⟩ []).score
    ∧ (getHealthScore ⟨some (some 5000), none, none⟩ []).score
        ≤ (getHealthScore ⟨none, none, none⟩ []).score
    ∧ (getHealthScore ⟨none, some (some 120), none⟩ []).score
        ≤ (getHealthScore ⟨none, none, none⟩ []).score
    ∧ (getHealthScore ⟨none, none, some (some 5)⟩ []).score
        ≤ (getHealthScore ⟨none, none, none⟩ []).score :=
  ⟨(C3_score_range_monotone ⟨none, none, none⟩ []).1,
   (C3_score_range_monotone ⟨none, none, none⟩ []).2.1 ⟨some ["FERRITIN"]⟩ (by decide),
   (C3_score_range_monotone ⟨none, none, none⟩ []).2.2.1 5000 rfl (by decide) (by decide),
   (C3_score_range_monotone ⟨none, none, none⟩ []).2.2.2.1 120 rfl (by decide)
     (Or.inr (by decide)),
   (C3_score_range_monotone ⟨none, none, none⟩ []).2.2.2.2 5 rfl (by decide) (by decide)⟩

/-- C4: a wearable metric whose `latest` is zero, null or missing is treated
as absent — the scorer's result is the one for the missing metric, and in
particular a zero heart rate adds no "Heart rate outside normal range"
factor and a zero sleep adds no "Insufficient sleep" factor. -/
theorem C4_zero_null_missing_absent (w : WearableSummary) (rs : List Report) :
    (getHealthScore ⟨some (some 0), w.heart_rate, w.sleep⟩ rs
        = getHealthScore ⟨none, w.heart_rate, w.sleep⟩ rs
      ∧ getHealthScore ⟨some none, w.heart_rate, w.sleep⟩ rs
        = getHealthScore ⟨none, w.heart_rate, w.sleep⟩ rs)
    ∧ (getHealthScore ⟨w.steps, some (some 0), w.sleep⟩ rs
        = getHealthScore ⟨w.steps, none, w.sleep⟩ rs
      ∧ getHealthScore ⟨w.steps, some none, w.sleep⟩ rs
        = getHealthScore ⟨w.steps, none, w.sleep⟩ rs)
    ∧ (getHealthScore ⟨w.steps, w.heart_rate, some (some 0)⟩ rs
        = getHealthScore ⟨w.steps, w.heart_rate, none⟩ rs
      ∧ getHealthScore ⟨w.steps, w.heart_rate, some none⟩ rs
        = getHealthScore ⟨w.steps, w.heart_rate, none⟩ rs)
    ∧ "Heart rate outside normal range"
        ∉ (getHealthScore ⟨w.steps, some (some 0), w.sleep⟩ rs).factors
    ∧ "Insufficient sleep"
        ∉ (getHealthScore ⟨w.steps, w.heart_rate, some (some 0)⟩ rs).factors := by
  have hs0 : stepsFactor (some (some (0:ℚ))) = stepsFactor none := by decide
  have hsn : stepsFactor (some (none : Option ℚ)) = stepsFactor none := by decide
  have hh0 : heartRateFactor (some (some (0:ℚ))) = heartRateFactor none := by decide
  have hhn : heartRateFactor (some (none : Option ℚ)) = heartRateFactor none := by
    decide
  have hl0 : sleepFactor (some (some (0:ℚ))) = sleepFactor none := by decide
  have hln : sleepFactor (some (none : Option ℚ)) = sleepFactor none := by decide
  refine ⟨⟨getHealthScore_congr _ _ rs hs0 rfl rfl,
          getHealthScore_congr _ _ rs hsn rfl rfl⟩,
         ⟨getHealthScore_congr _ _ rs rfl hh0 rfl,
          getHealthScore_congr _ _ rs rfl hhn rfl⟩,
         ⟨getHealthScore_congr _ _ rs rfl rfl hl0,
          getHealthScore_congr _ _ rs rfl rfl hln⟩, ?_, ?_⟩
  · intro hmem
    rw [getHealthScore_factors] at hmem
    have hz : heartRateFactor (some (some (0:ℚ))) = (0, []) := by decide
    rw [hz] at hmem
    rcases List.mem_append.1 hmem with h' | hD
    · rcases List.mem_append.1 h' with h'' | hC
      · rcases List.mem_append.1 h'' with hA | hB
        · rcases stepsFactor_snd w.steps with e | e <;> rw [e] at hA <;>
            simp only [List.mem_singleton, List.not_mem_nil] at hA
          exact absurd hA (by decide)
        · simp at hB
      · rcases sleepFactor_snd w.sleep with e | e <;> rw [e] at hC <;>
          simp only [List.mem_singleton, List.not_mem_nil] at hC
        exact absurd hC (by decide)
    · exact mem_reportFactors_ne rs _ _ hD (by decide) rfl
  · intro hmem
    rw [getHealthScore_factors] at hmem
    have hz : sleepFactor (some (some (0:ℚ))) = (0, []) := by decide
    rw [hz] at hmem
    rcases List.mem_append.1 hmem with h' | hD
    · rcases List.mem_append.1 h' with h'' | hC
      · rcases List.mem_append.1 h'' with hA | hB
        · rcases stepsFactor_snd w.steps with e | e <;> rw [e] at hA <;>
            simp only [List.mem_singleton, List.not_mem_nil] at hA
          exact absurd hA (by decide)
        · rcases heartRateFactor_snd w.heart_rate with e | e <;> rw [e] at hB <;>
            simp only [List.mem_singleton, List.not_mem_nil] at hB
          exact absurd hB (by decide)
      · simp at hC
    · exact mem_reportFactors_ne rs _ _ hD (by decide) rfl

/-- C9: the factors list follows a fixed order — the step factor, then the
heart-rate factor, then the sleep factor, then one factor per flagged
report in input order. -/
theorem C9_factor_order (w : WearableSummary) (rs : List Report) :
    (getHealthScore w rs).factors
      = (match latestValue w.steps with
          | some v => if v < 8000 then ["Low step count"] else []
          | none => [])
        ++ (match latestValue w.heart_rate with
          | some v =>
            if v < 60 ∨ 100 < v then ["Heart rate outside normal range"] else []
          | none => [])
        ++ (match latestValue w.sleep with
          | some v => if v < 7 then ["Insufficient sleep"] else []
          | none => [])
        ++ rs.filterMap reportFactor := by
  rw [getHealthScore_factors]
  have e1 : (stepsFactor w.steps).2
      = (match latestValue w.steps with
          | some v => if v < 8000 then ["Low step count"] else []
          | none => []) := by
    unfold stepsFactor
    rcases latestValue w.steps with _ | v
    · rfl
    · by_cases h : v < 8000 <;> simp [h]
  have e2 : (heartRateFactor w.heart_rate).2
      = (match latestValue w.heart_rate with
          | some v =>
            if v < 60 ∨ 100 < v then ["Heart rate outside normal range"] else []
          | none => []) := by
    unfold heartRateFactor
    rcases latestValue w.heart_rate with _ | v
    · rfl
    · by_cases h : v < 60 ∨ 100 < v <;> simp [h]
  have e3 : (sleepFactor w.sleep).2
      = (match latestValue w.sleep with
          | some v => if v < 7 then ["Insufficient sleep"] else []
          | none => []) := by
    unfold sleepFactor
    rcases latestValue w.sleep with _ | v
    · rfl
    · by_cases h : v < 7 <;> simp [h]
  rw [e1, e2, e3]

/-- C1: for wearable data `{steps: 5000, heart_rate: 72, sleep: 8}` and one
report holding exactly one marker of status `high`, `getHealthScore`
returns score 70 with the factors `["Low step count",
"1 abnormal lab markers"]` in that order, and the rating for 70 is
`Good`. -/
theorem C1_single_abnormal_report (m : ExtractedMarker) (t : String) (n k : Nat)
    (h : m.status = MarkerStatus.high) :
    getHealthScore ⟨some (some 5000), some (some 72), some (some 8)⟩
        [reportOfResult ⟨t, n, [m], k⟩]
      = ⟨70, ["Low step count", "1 abnormal lab markers"]⟩
    ∧ rating 70 = "Good" := by
  have hf : flaggedCount (reportOfResult ⟨t, n, [m], k⟩) = 1 := by
    simp [flaggedCount, reportOfResult, h]
  refine ⟨?_, by decide⟩
  have h1 : stepsFactor (some (some (5000:ℚ))) = (10, ["Low step count"]) := by
    decide
  have h2 : heartRateFactor (some (some (72:ℚ))) = (0, []) := by decide
  have h3 : sleepFactor (some (some (8:ℚ))) = (0, []) := by decide
  have hsc : (getHealthScore ⟨some (some 5000), some (some 72), some (some 8)⟩
      [reportOfResult ⟨t, n, [m], k⟩]).score = 70 := by
    rw [getHealthScore_score]
    simp only [h1, h2, h3, List.countP_cons, List.countP_nil, hf]
    decide
  have hfa : (getHealthScore ⟨some (some 5000), some (some 72), some (some 8)⟩
      [reportOfResult ⟨t, n, [m], k⟩]).factors
        = ["Low step count", "1 abnormal lab markers"] := by
    rw [getHealthScore_factors]
    have hrf : reportFactor (reportOfResult ⟨t, n, [m], k⟩)
        = some "1 abnormal lab markers" := by
      unfold reportFactor
      rw [hf]
      rfl
    simp only [h1, h2, h3, List.filterMap_cons, List.filterMap_nil, hrf]
    rfl
  calc getHealthScore ⟨some (some 5000), some (some 72), some (some 8)⟩
        [reportOfResult ⟨t, n, [m], k⟩]
      = ⟨(getHealthScore ⟨some (some 5000), some (some 72), some (some 8)⟩
            [reportOfResult ⟨t, n, [m], k⟩]).score,
         (getHealthScore ⟨some (some 5000), some (some 72), some (some 8)⟩
            [reportOfResult ⟨t, n, [m], k⟩]).factors⟩ := rfl
    _ = ⟨70, ["Low step count", "1 abnormal lab markers"]⟩ := by rw [hsc, hfa]

/-- Witness for C1 at a concrete high-status ferritin marker. -/
theorem C1_single_abnormal_report_witness :
    getHealthScore ⟨some (some 5000), some (some 72), some (some 8)⟩
        [reportOfResult ⟨"FERRITIN: 500 ng/mL", 19,
          [⟨"FERRITIN", 500, "ng/mL", "38-380", MarkerStatus.high, "r"⟩], 1⟩]
      = ⟨70, ["Low step count", "1 abnormal lab markers"]⟩
    ∧ rating 70 = "Good" :=
  C1_single_abnormal_report ⟨"FERRITIN", 500, "ng/mL", "38-380", MarkerStatus.high, "r"⟩
    "FERRITIN: 500 ng/mL" 19 1 rfl

/-- C5: each `ExtractionResult` with at least one non-normal marker costs
exactly 20 points and contributes exactly one factor naming its count of
non-normal markers; a result with no abnormal markers contributes
nothing. -/
theorem C5_per_report_deduction (w : WearableSummary) (rs : List ExtractionResult) :
    (getHealthScore w (rs.map reportOfResult)).score
      = max 0 ((getHealthScore w []).score
          - 20 * ((rs.countP fun r => decide (0 < countAbnormal r)) : Int))
    ∧ (getHealthScore w (rs.map reportOfResult)).factors
      = (getHealthScore w []).factors
        ++ rs.filterMap (fun r =>
            if 0 < countAbnormal r then
              some (toString (countAbnormal r) ++ " abnormal lab markers")
            else none) := by
  have hcount : (rs.map reportOfResult).countP (fun r => decide (0 < flaggedCount r))
      = rs.countP fun r => decide (0 < countAbnormal r) := by
    rw [List.countP_map]
    apply List.countP_congr
    intro r _
    simp [Function.comp, flaggedCount_reportOfResult]
  have hbase : (getHealthScore w []).score
      = 100 - (stepsFactor w.steps).1 - (heartRateFactor w.heart_rate).1
        - (sleepFactor w.sleep).1 := by
    rw [getHealthScore_score]
    simp only [List.countP_nil]
    have h1 := stepsFactor_fst w.steps
    have h2 := heartRateFactor_fst w.heart_rate
    have h3 := sleepFactor_fst w.sleep
    rcases h1 with h1 | h1 <;> rcases h2 with h2 | h2 <;> rcases h3 with h3 | h3 <;>
      rw [h1, h2, h3] <;> decide
  constructor
  · rw [getHealthScore_score, hcount, hbase]
  · rw [getHealthScore_factors, getHealthScore_factors]
    simp only [List.filterMap_nil, List.append_nil, List.append_assoc]
    congr 3
    rw [List.filterMap_map]
    apply List.filterMap_congr
    intro r _
    simp only [Function.comp, reportFactor, flaggedCount_reportOfResult]

/-- C7: for every value matched against a `MarkerDefinition` with bounds
`[low, high]`, the assigned status is `low` exactly when `value < low`,
`high` exactly when `value > high`, `normal` exactly when
`low <= value <= high`, and the recommendation is `recommendation_low`,
`recommendation_high` or empty accordingly. -/
theorem C7_range_classification (d : MarkerDefinition) (v : ℚ) (u : String)
    (hlh : d.low ≤ d.high) :
    ((mkExtractedMarker d v u).status = MarkerStatus.low ↔ v < d.low)
    ∧ ((mkExtractedMarker d v u).status = MarkerStatus.high ↔ d.high < v)
    ∧ ((mkExtractedMarker d v u).status = MarkerStatus.normal
        ↔ d.low ≤ v ∧ v ≤ d.high)
    ∧ ((mkExtractedMarker d v u).status = MarkerStatus.low →
        (mkExtractedMarker d v u).recommendation = d.recommendation_low)
    ∧ ((mkExtractedMarker d v u).status = MarkerStatus.high →
        (mkExtractedMarker d v u).recommendation = d.recommendation_high)
    ∧ ((mkExtractedMarker d v u).status = MarkerStatus.normal →
        (mkExtractedMarker d v u).recommendation = "") := by
  unfold mkExtractedMarker
  split_ifs with hlow hhigh
  · refine ⟨?_, ?_, ?_, ?_, ?_, ?_⟩
    · exact ⟨fun _ => hlow, fun _ => rfl⟩
    · refine ⟨fun hc => (nomatch hc), fun hv => ?_⟩
      exfalso
      linarith
    · refine ⟨fun hc => (nomatch hc), fun hv => ?_⟩
      exfalso
      linarith [hv.1]
    · exact fun _ => rfl
    · exact fun hc => (nomatch hc)
    · exact fun hc => (nomatch hc)
  · push_neg at hlow
    refine ⟨?_, ?_, ?_, ?_, ?_, ?_⟩
    · refine ⟨fun hc => (nomatch hc), fun hv => ?_⟩
      exfalso
      linarith
    · exact ⟨fun _ => hhigh, fun _ => rfl⟩
    · refine ⟨fun hc => (nomatch hc), fun hv => ?_⟩
      exfalso
      linarith [hv.2]
    · exact fun hc => (nomatch hc)
    · exact fun _ => rfl
    · exact fun hc => (nomatch hc)
  · push_neg at hlow hhigh
    refine ⟨?_, ?_, ?_, ?_, ?_, ?_⟩
    · refine ⟨fun hc => (nomatch hc), fun hv => ?_⟩
      exfalso
      linarith
    · refine ⟨fun hc => (nomatch hc), fun hv => ?_⟩
      exfalso
      linarith
    · exact ⟨fun _ => ⟨hlow, hhigh⟩, fun _ => rfl⟩
    · exact fun hc => (nomatch hc)
    · exact fun hc => (nomatch hc)
    · exact fun _ => rfl

/-- Witness for C7 at the FERRITIN bounds and value 22. -/
theorem C7_range_classification_witness :
    (mkExtractedMarker
      ⟨"FERRITIN", ["FERRITIN", "SERUM FERRITIN"], "ng/mL", ["ng/ml", "NG/ML"],
        38, 380, "rl", "rh"⟩ 22 "ng/mL").status = MarkerStatus.low :=
  (C7_range_classification
      ⟨"FERRITIN", ["FERRITIN", "SERUM FERRITIN"], "ng/mL", ["ng/ml", "NG/ML"],
        38, 380, "rl", "rh"⟩ 22 "ng/mL" (by decide)).1.mpr (by decide)

/-- C8: `extract` is total and `markersFound` always equals the length of
the marker list; on the no-marker input
"The patient feels fine today." it returns an empty marker list with
`markersFound = 0` rather than an error. -/
theorem C8_extract_never_fails (defs : List MarkerDefinition) (raw : String) :
    (extract defs raw).markers_found = (extract defs raw).markers.length
    ∧ (extract markerTable "The patient feels fine today.").markers = []
    ∧ (extract markerTable "The patient feels fine today.").markers_found = 0 :=
  ⟨rfl, rfl, rfl⟩

/-- Witness for C4 at the empty wearable summary and empty report list. -/
theorem C4_zero_null_missing_absent_witness :
    (getHealthScore ⟨some (some 0), none, none⟩ []
        = getHealthScore ⟨none, none, none⟩ []
      ∧ getHealthScore ⟨some none, none, none⟩ []
        = getHealthScore ⟨none, none, none⟩ [])
    ∧ (getHealthScore ⟨none, some (some 0), none⟩ []
        = getHealthScore ⟨none, none, none⟩ []
      ∧ getHealthScore ⟨none, some none, none⟩ []
        = getHealthScore ⟨none, none, none⟩ [])
    ∧ (getHealthScore ⟨none, none, some (some 0)⟩ []
        = getHealthScore ⟨none, none, none⟩ []
      ∧ getHealthScore ⟨none, none, some none⟩ []
        = getHealthScore ⟨none, none, none⟩ [])
    ∧ "Heart rate outside normal range"
        ∉ (getHealthScore ⟨none, some (some 0), none⟩ []).factors
    ∧ "Insufficient sleep"
        ∉ (getHealthScore ⟨none, none, some (some 0)⟩ []).factors :=
  C4_zero_null_missing_absent ⟨none, none, none⟩ []

end HealthInsights
